import Mathlib

/-!
Verification of hongliliu/bayesian-ngc1333, `innocent_script.py`.

The script assembles prior bounds for an N-component ammonia model, runs a
sanity guard, creates an output directory (tolerating an already-exists race),
invokes pymultinest, and, on the MPI-root process with plotting enabled,
aggregates evidences into log-Bayes-factors and plots.

We embed the prior construction over the reals (the minimal line width is
irrational) and the script control flow as a computable trace function over
abstract external outcomes (MPI rank, argv, likelihood finiteness, filesystem
results, sampler result, baseline-file read result).
-/

namespace Innocent

/-- Python list repetition: `l * n` concatenates `n` copies of `l`
(empty for `n = 0`, which also covers negative Python multiplicands
after `Int.toNat`). -/
def pyListMul {α : Type} (l : List α) (n : Nat) : List α :=
  (List.replicate n l).flatten

/-- Source line 127: `sig2fwhm = 2*(2*np.log(2))**0.5`. -/
noncomputable def sig2fwhm : ℝ := 2 * (2 * Real.log 2) ^ (0.5 : ℝ)

/-- Source line 128: `min_sigma = 0.07 / sig2fwhm`. -/
noncomputable def min_sigma : ℝ := 0.07 / sig2fwhm

/-- Source line 132: minimal separation of the velocity components. -/
noncomputable def dv_min : ℝ := 0.2

/-- Source line 132: maximal separation of the velocity components. -/
noncomputable def dv_max : ℝ := 3.0

/-- Source line 133: `dxoff_prior = [dv_min, dv_max]`. -/
noncomputable def dxoff_prior : ℝ × ℝ := (dv_min, dv_max)

/-- Source lines 134-137: the prior bounds list. A six-interval block
(reversed in place by `[::-1]`) is repeated `npeaks - 1` times for the
separation-parameterized components, followed by one reversed anchored
block whose velocity interval is `[3, 10]`. -/
noncomputable def priors_xoff_transformed (npeaks : ℤ) : List (ℝ × ℝ) :=
  pyListMul
    ([((2.7315 : ℝ), 25), (2.7315, 25), (12.0, 15.0),
      (min_sigma, 1), dxoff_prior, (0.05, 2)].reverse)
    (npeaks - 1).toNat
  ++ [((2.7315 : ℝ), 25), (2.7315, 25), (12.0, 15.0),
      (min_sigma, 1), (3, 10), (0.05, 1)].reverse

/-- The separation block of `priors_xoff_transformed`, after the in-place
`[::-1]` reversal of source line 135. -/
noncomputable def sep_block_rev : List (ℝ × ℝ) :=
  [(0.05, 2), dxoff_prior, (min_sigma, 1), (12.0, 15.0), (2.7315, 25),
   (2.7315, 25)]

/-- The anchored block of `priors_xoff_transformed`, after the in-place
`[::-1]` reversal of source line 137. -/
noncomputable def anchored_block_rev : List (ℝ × ℝ) :=
  [(0.05, 1), (3, 10), (min_sigma, 1), (12.0, 15.0), (2.7315, 25),
   (2.7315, 25)]

/-- Source lines 75-79: `npeaks = int(sys.argv[1])`, defaulting to the
module-level value 2 when the argument is missing (caught IndexError).
We model argv entries as the already-converted integers. -/
def parse_npeaks (argv : List ℤ) : ℤ :=
  match argv[0]? with
  | some v => v
  | none => 2

/-- Source lines 81-85: `yx = int(sys.argv[2]), int(sys.argv[3])`,
defaulting to `(140, 112)` when either index is missing (the whole tuple
assignment raises IndexError). -/
def parse_yx (argv : List ℤ) : ℤ × ℤ :=
  match argv[1]?, argv[2]? with
  | some a, some b => (a, b)
  | _, _ => (140, 112)

/-- Source lines 87-90: `plotting = bool(int(sys.argv[4]))`, defaulting
to 0 (false) when the argument is missing. -/
def parse_plotting (argv : List ℤ) : Bool :=
  match argv[3]? with
  | some v => v ≠ 0
  | none => false

/-- Source lines 65-73: rank-0 check; an absent MPI runtime
(AttributeError, modelled as `none`) counts as root. -/
def i_am_root (rank : Option ℕ) : Bool :=
  match rank with
  | some r => r == 0
  | none => true

/-- Source line 148: the fixed trial parameter vector
`[15, 5, 15, 0.2, 7, 0.5] * npeaks` fed to the sanity-check likelihood. -/
def trial_pars (npeaks : ℤ) : List ℚ :=
  pyListMul [15, 5, 15, 0.2, 7, 0.5] npeaks.toNat

/-- Observable actions of the script, in program order. -/
inductive Ev
  | logAbort (x y : ℤ)
  | mkdirsAttempt
  | samplerCall
  | logEvidence
  | baselineReadAttempt
  | baselineRecompute
  | logBayesFactor (hi lo : ℤ)
  | saveFig
  | showPlot
  deriving DecidableEq, Repr

/-- Exceptions that can escape the modelled region of the script. -/
inductive PyErr
  | osError (errno : ℕ)
  | samplerError
  | otherError
  deriving DecidableEq, Repr

/-- Result of `fits.getdata` on the cached baseline-evidence file:
success, FileNotFoundError, another OSError, or an exception of a class
not listed in the except clause of source line 190. -/
inductive ReadRes
  | ok
  | fnfError
  | osReadError
  | otherExc
  deriving DecidableEq, Repr

/-- How the process ends: sys.exit (SystemExit, exit code), normal
completion, or an uncaught exception. -/
inductive Outcome
  | exited (code : ℕ)
  | completed
  | raised (e : PyErr)
  deriving DecidableEq, Repr

/-- Abstract outcomes of all external calls the script makes, plus its
command line and MPI rank. `makedirsResult = some e` means `os.makedirs`
raised OSError with errno `e`; `samplerResult = some e` means
`pymultinest.run` raised `e`. -/
structure ScriptInput where
  rank : Option ℕ
  argv : List ℤ
  anyFiniteChannel : Bool
  loglikeFinite : List ℚ → Bool
  chainsDirExists : Bool
  makedirsResult : Option ℕ
  samplerResult : Option PyErr
  baselineRead : ReadRes

/-- Source lines 161-166: the try/except around `os.makedirs`; errno 17
is swallowed, anything else is re-raised. Returns the uncaught errno. -/
def makedirs_errno_guard (res : Option ℕ) : Option ℕ :=
  match res with
  | none => none
  | some e => if e ≠ 17 then some e else none

/-- Source lines 198-201: the Bayes-factor log lines; the comparison
against the zero-component baseline is printed only when npeaks > 1. -/
def bf_events (npeaks : ℤ) : List Ev :=
  [Ev.logBayesFactor npeaks (npeaks - 1)]
    ++ if 1 < npeaks then [Ev.logBayesFactor npeaks 0] else []

/-- Source lines 203-248: the fit plot (shown, then saved) and the corner
plot (saved, then shown); with plotting on, all the show flags are true. -/
def plot_events : List Ev :=
  [Ev.showPlot, Ev.saveFig, Ev.saveFig, Ev.showPlot]

/-- Source lines 146-150: the sanity guard passes iff some channel has
finite flux and the trial log-likelihood is finite. -/
def sanity_passes (inp : ScriptInput) : Bool :=
  inp.anyFiniteChannel && inp.loglikeFinite (trial_pars (parse_npeaks inp.argv))

/-- Source lines 160-166: the trace of the directory-creation step
(no makedirs call at all when the path already exists). -/
def dir_evs (inp : ScriptInput) : List Ev :=
  if inp.chainsDirExists then [] else [Ev.mkdirsAttempt]

/-- Source lines 160-166: the errno that escapes the directory-creation
step, if any. -/
def dir_err (inp : ScriptInput) : Option ℕ :=
  if inp.chainsDirExists then none else makedirs_errno_guard inp.makedirsResult

/-- The script from the sanity guard (line 144) to the end, as a trace of
observable events plus the process outcome, transliterated from
`innocent_script.py`. -/
def script (inp : ScriptInput) : List Ev × Outcome :=
  let npeaks := parse_npeaks inp.argv
  let yx := parse_yx inp.argv
  let plotting := parse_plotting inp.argv
  if !sanity_passes inp then
    ([Ev.logAbort yx.2 yx.1], Outcome.exited 0)
  else
    match dir_err inp with
    | some e => (dir_evs inp, Outcome.raised (PyErr.osError e))
    | none =>
      let evs1 := dir_evs inp ++ [Ev.samplerCall]
      match inp.samplerResult with
      | some e => (evs1, Outcome.raised e)
      | none =>
        if i_am_root inp.rank && plotting then
          let evs2 := evs1 ++ [Ev.logEvidence, Ev.baselineReadAttempt]
          match inp.baselineRead with
          | ReadRes.otherExc => (evs2, Outcome.raised PyErr.otherError)
          | ReadRes.ok =>
            (evs2 ++ bf_events npeaks ++ plot_events, Outcome.completed)
          | ReadRes.fnfError =>
            (evs2 ++ [Ev.baselineRecompute] ++ bf_events npeaks
              ++ plot_events, Outcome.completed)
          | ReadRes.osReadError =>
            (evs2 ++ [Ev.baselineRecompute] ++ bf_events npeaks
              ++ plot_events, Outcome.completed)
        else (evs1, Outcome.completed)

/-- The values logged by source lines 198-201, labelled by the two model
orders compared: `ln(Z_hi) - ln(Z_lo)` for each reported pair. `Zs` is
the map from component count to global log-evidence returned by the
external `lnZ_xy`. -/
def reported_bayes_factors (npeaks : ℤ) (Zs : ℤ → ℚ) : List (ℤ × ℤ × ℚ) :=
  [(npeaks, npeaks - 1, Zs npeaks - Zs (npeaks - 1))]
    ++ if 1 < npeaks then [(npeaks, 0, Zs npeaks - Zs 0)] else []

/-- Events that belong to the baseline-evidence computation or to
plotting (the operations claim C4 says are root-gated). -/
def isPostRootEv : Ev → Bool
  | Ev.logEvidence => true
  | Ev.baselineReadAttempt => true
  | Ev.baselineRecompute => true
  | Ev.logBayesFactor _ _ => true
  | Ev.saveFig => true
  | Ev.showPlot => true
  | _ => false

/-- One `os.makedirs` call against a filesystem in which the directory
does or does not exist: returns the new existence state, whether this
call actually created the directory, and the errno it raised (17 when
the path already existed). -/
def os_makedirs_model (dirExists : Bool) : Bool × Bool × Option ℕ :=
  if dirExists then (true, false, some 17) else (true, true, none)

/-- An `os.makedirs` call wrapped in the errno-17 guard of source lines
161-166. -/
def guarded_makedirs (dirExists : Bool) : Bool × Bool × Option ℕ :=
  let r := os_makedirs_model dirExists
  (r.1, r.2.1, makedirs_errno_guard r.2.2)

/-- Two processes race to create the same missing directory: both passed
the `os.path.exists` check while it was absent, then call the guarded
`os.makedirs` one after the other. Returns the number of actual
creations and each process's uncaught error. -/
def race_two_creators : ℕ × Option ℕ × Option ℕ :=
  let r1 := guarded_makedirs false
  let r2 := guarded_makedirs r1.1
  ((if r1.2.1 then 1 else 0) + (if r2.2.1 then 1 else 0), r1.2.2, r2.2.2)

/-- A pixel whose spectrum has no finite channel. -/
def inp_fail : ScriptInput :=
  ⟨none, [], false, fun _ => true, false, none, none, ReadRes.ok⟩

/-- A healthy non-MPI run with no arguments. -/
def inp_ok : ScriptInput :=
  ⟨none, [], true, fun _ => true, false, none, none, ReadRes.ok⟩

/-- A healthy run on a non-root MPI rank with the chains dir missing. -/
def inp_nonroot : ScriptInput :=
  ⟨some 1, [], true, fun _ => true, false, none, none, ReadRes.ok⟩

/-- A run whose makedirs call loses the creation race (errno 17). -/
def inp_mkdir17 : ScriptInput :=
  ⟨none, [], true, fun _ => true, false, some 17, none, ReadRes.ok⟩

/-- A run whose makedirs call fails with errno 13 (permission denied). -/
def inp_mkdir13 : ScriptInput :=
  ⟨none, [], true, fun _ => true, false, some 13, none, ReadRes.ok⟩

/-- A run in which the sampler itself raises. -/
def inp_sampler_fail : ScriptInput :=
  ⟨none, [], true, fun _ => true, true, none, some PyErr.samplerError,
   ReadRes.ok⟩

/-- A root run with plotting on whose cached baseline file is missing. -/
def inp_fallback : ScriptInput :=
  ⟨none, [1, 1, 1, 1], true, fun _ => true, true, none, none,
   ReadRes.fnfError⟩

/-- A healthy run with the plotting flag left at its default. -/
def inp_plot_off : ScriptInput :=
  ⟨none, [], true, fun _ => true, true, none, none, ReadRes.ok⟩

theorem pyListMul_length {α : Type} (l : List α) (n : Nat) :
    (pyListMul l n).length = n * l.length := by
  induction n with
  | zero => simp [pyListMul]
  | succ n ih =>
    show ((List.replicate (n + 1) l).flatten).length = (n + 1) * l.length
    rw [List.replicate_succ, List.flatten_cons, List.length_append,
      show (List.replicate n l).flatten = pyListMul l n from rfl, ih]
    ring

theorem pyListMul_getElem?_block {α : Type} (l rest : List α) (k i j : Nat)
    (hi : i < k) (hj : j < l.length) :
    (pyListMul l k ++ rest)[l.length * i + j]? = l[j]? := by
  induction k generalizing i rest with
  | zero => omega
  | succ k ih =>
    have hjoin : pyListMul l (k + 1) = l ++ pyListMul l k := by
      simp [pyListMul, List.replicate_succ]
    rw [hjoin, List.append_assoc]
    cases i with
    | zero =>
      have hidx : l.length * 0 + j = j := by omega
      rw [hidx]
      exact List.getElem?_append_left hj
    | succ i =>
      have hge : l.length ≤ l.length * (i + 1) + j := by
        nlinarith [hj, Nat.zero_le (l.length * i)]
      rw [List.getElem?_append_right hge]
      have harith : l.length * (i + 1) + j - l.length = l.length * i + j := by
        have h2 : l.length * (i + 1) = l.length * i + l.length := by ring
        omega
      rw [harith]
      exact ih rest i (by omega)

theorem pyListMul_getElem?_rest {α : Type} (l rest : List α) (k j : Nat) :
    (pyListMul l k ++ rest)[l.length * k + j]? = rest[j]? := by
  have hcomm : k * l.length = l.length * k := Nat.mul_comm _ _
  have hge : (pyListMul l k).length ≤ l.length * k + j := by
    rw [pyListMul_length, hcomm]; omega
  rw [List.getElem?_append_right hge, pyListMul_length, hcomm]
  congr 1
  omega

theorem priors_blocks (npeaks : ℤ) :
    priors_xoff_transformed npeaks =
      pyListMul sep_block_rev (npeaks - 1).toNat ++ anchored_block_rev := rfl

theorem min_sigma_pos : 0 < min_sigma := by
  have hlog : 0 < Real.log 2 := Real.log_pos (by norm_num)
  have hbase : (0 : ℝ) < 2 * Real.log 2 := by linarith
  have hpow : 0 < (2 * Real.log 2) ^ (0.5 : ℝ) := Real.rpow_pos_of_pos hbase _
  have hfw : 0 < sig2fwhm := by
    unfold sig2fwhm; positivity
  unfold min_sigma
  positivity

theorem min_sigma_eq : min_sigma = 0.07 / (2 * Real.sqrt (2 * Real.log 2)) := by
  unfold min_sigma sig2fwhm
  rw [Real.sqrt_eq_rpow]
  norm_num

theorem script_pass_trace (inp : ScriptInput) (hs : sanity_passes inp = true)
    (hd : dir_err inp = none) :
    ∃ rest, (script inp).1 = dir_evs inp ++ Ev.samplerCall :: rest := by
  cases hsam : inp.samplerResult with
  | some e => exact ⟨[], by simp [script, hs, hd, hsam]⟩
  | none =>
    by_cases hrp : (i_am_root inp.rank && parse_plotting inp.argv) = true
    · cases hread : inp.baselineRead with
      | ok =>
        exact ⟨[Ev.logEvidence, Ev.baselineReadAttempt]
            ++ bf_events (parse_npeaks inp.argv) ++ plot_events,
          by simp [script, hs, hd, hsam, hrp, hread]⟩
      | fnfError =>
        exact ⟨[Ev.logEvidence, Ev.baselineReadAttempt]
            ++ [Ev.baselineRecompute]
            ++ bf_events (parse_npeaks inp.argv) ++ plot_events,
          by simp [script, hs, hd, hsam, hrp, hread]⟩
      | osReadError =>
        exact ⟨[Ev.logEvidence, Ev.baselineReadAttempt]
            ++ [Ev.baselineRecompute]
            ++ bf_events (parse_npeaks inp.argv) ++ plot_events,
          by simp [script, hs, hd, hsam, hrp, hread]⟩
      | otherExc =>
        exact ⟨[Ev.logEvidence, Ev.baselineReadAttempt],
          by simp [script, hs, hd, hsam, hrp, hread]⟩
    · exact ⟨[], by simp [script, hs, hd, hsam, hrp]⟩

theorem dir_evs_no_post (inp : ScriptInput) :
    ∀ e ∈ dir_evs inp, isPostRootEv e = false := by
  intro e he
  unfold dir_evs at he
  split at he
  · simp at he
  · simp at he
    rw [he]
    rfl

/-- C1: for every component count N at least 1, the prior-bounds list has
exactly 6N intervals: N-1 separation blocks first, each with the strictly
positive separation interval [0.2, 3.0] in its velocity slot, then one
anchored block whose velocity-offset interval is [3, 10]; for N = 1 the
list is the single anchored block alone. -/
theorem priors_bounds_layout (N : ℤ) (hN : 1 ≤ N) :
    (priors_xoff_transformed N).length = 6 * N.toNat
    ∧ (∀ i : ℕ, (i : ℤ) < N - 1 →
        (priors_xoff_transformed N)[6 * i + 1]? = some dxoff_prior)
    ∧ dxoff_prior = (0.2, 3.0)
    ∧ (0 : ℝ) < dxoff_prior.1
    ∧ (priors_xoff_transformed N)[6 * (N.toNat - 1) + 1]? = some ((3 : ℝ), 10)
    ∧ priors_xoff_transformed 1 =
        [(0.05, 1), ((3 : ℝ), 10), (min_sigma, 1), (12.0, 15.0),
         (2.7315, 25), (2.7315, 25)] := by
  have hsep : sep_block_rev.length = 6 := rfl
  have hanch : anchored_block_rev.length = 6 := rfl
  refine ⟨?_, ?_, rfl, by norm_num [dxoff_prior, dv_min], ?_, rfl⟩
  · rw [priors_blocks, List.length_append, pyListMul_length, hsep, hanch]
    omega
  · intro i hi
    have hik : i < (N - 1).toNat := by omega
    have h := pyListMul_getElem?_block sep_block_rev anchored_block_rev
      ((N - 1).toNat) i 1 hik (by rw [hsep]; omega)
    rw [hsep] at h
    rw [priors_blocks, h]
    rfl
  · have hk : 6 * (N.toNat - 1) + 1 =
        sep_block_rev.length * (N - 1).toNat + 1 := by
      rw [hsep]; omega
    rw [priors_blocks, hk, pyListMul_getElem?_rest]
    rfl

/-- Witness for C1 at N = 2 and separation block 0. -/
theorem priors_bounds_layout_witness :
    (priors_xoff_transformed 2).length = 6 * (2 : ℤ).toNat
    ∧ (priors_xoff_transformed 2)[1]? = some dxoff_prior
    ∧ dxoff_prior = (0.2, 3.0)
    ∧ (priors_xoff_transformed 2)[6 * ((2 : ℤ).toNat - 1) + 1]? =
        some ((3 : ℝ), 10) := by
  have h := priors_bounds_layout 2 (by norm_num)
  exact ⟨h.1, by simpa using h.2.1 0 (by norm_num), h.2.2.1, h.2.2.2.2.1⟩

/-- C8: in every component block (separation blocks and the anchored block
alike), the line-width interval is [min_sigma, 1], where min_sigma equals
0.07 divided by 2 sqrt(2 ln 2) and is strictly positive. -/
theorem linewidth_lower_bound (N : ℤ) (hN : 1 ≤ N) (i : ℕ)
    (hi : (i : ℤ) < N) :
    (priors_xoff_transformed N)[6 * i + 2]? = some (min_sigma, 1)
    ∧ min_sigma = 0.07 / (2 * Real.sqrt (2 * Real.log 2))
    ∧ 0 < min_sigma := by
  have hsep : sep_block_rev.length = 6 := rfl
  refine ⟨?_, min_sigma_eq, min_sigma_pos⟩
  by_cases hlt : (i : ℤ) < N - 1
  · have hik : i < (N - 1).toNat := by omega
    have h := pyListMul_getElem?_block sep_block_rev anchored_block_rev
      ((N - 1).toNat) i 2 hik (by rw [hsep]; omega)
    rw [hsep] at h
    rw [priors_blocks, h]
    rfl
  · have hieq : i = (N - 1).toNat := by omega
    have hk : 6 * i + 2 = sep_block_rev.length * (N - 1).toNat + 2 := by
      rw [hsep]; omega
    rw [priors_blocks, hk, pyListMul_getElem?_rest]
    rfl

/-- Witness for C8 at N = 1, block 0. -/
theorem linewidth_lower_bound_witness :
    (priors_xoff_transformed 1)[2]? = some (min_sigma, 1) ∧ 0 < min_sigma := by
  have h := linewidth_lower_bound 1 (by norm_num) 0 (by norm_num)
  exact ⟨by simpa using h.1, h.2.2⟩

/-- C2: if no channel has finite flux or the trial log-likelihood is not
finite, the script logs the pixel coordinates and exits with code 0,
without creating the output directory and without calling the sampler;
when both checks pass (and directory creation does not raise a fatal
errno) the sampler call is reached. -/
theorem sanity_guard_aborts (inp : ScriptInput) :
    ((inp.anyFiniteChannel = false
        ∨ inp.loglikeFinite (trial_pars (parse_npeaks inp.argv)) = false) →
      script inp =
        ([Ev.logAbort (parse_yx inp.argv).2 (parse_yx inp.argv).1],
          Outcome.exited 0)
      ∧ Ev.mkdirsAttempt ∉ (script inp).1
      ∧ Ev.samplerCall ∉ (script inp).1)
    ∧ (sanity_passes inp = true → dir_err inp = none →
      Ev.samplerCall ∈ (script inp).1) := by
  constructor
  · intro hfail
    have hs0 : sanity_passes inp = false := by
      unfold sanity_passes
      rcases hfail with h | h <;> simp [h]
    have htr : script inp =
        ([Ev.logAbort (parse_yx inp.argv).2 (parse_yx inp.argv).1],
          Outcome.exited 0) := by
      simp [script, hs0]
    refine ⟨htr, ?_, ?_⟩ <;> rw [htr] <;> simp
  · intro hs hd
    obtain ⟨rest, hr⟩ := script_pass_trace inp hs hd
    rw [hr]
    simp

/-- Witness for C2: an all-NaN pixel aborts with the coordinates logged;
a healthy default run reaches the sampler. -/
theorem sanity_guard_aborts_witness :
    script inp_fail = ([Ev.logAbort 112 140], Outcome.exited 0)
    ∧ Ev.samplerCall ∈ (script inp_ok).1 := by
  constructor
  · exact ((sanity_guard_aborts inp_fail).1 (Or.inl rfl)).1
  · exact (sanity_guard_aborts inp_ok).2 rfl rfl

/-- C3: for every target component count N greater than 0, both the
log-Bayes-factor against model N-1 and the one against the N=0 baseline
appear among the reported values, each a plain difference of the
log-evidences Zs (for N = 1 the two coincide and are reported once). -/
theorem bayes_factors_reported (N : ℤ) (hN : 0 < N) (Zs : ℤ → ℚ) :
    (Zs N - Zs (N - 1)) ∈
      (reported_bayes_factors N Zs).map (fun t => t.2.2)
    ∧ (Zs N - Zs 0) ∈
      (reported_bayes_factors N Zs).map (fun t => t.2.2) := by
  by_cases h1 : 1 < N
  · constructor <;> simp [reported_bayes_factors, h1]
  · have hN1 : N = 1 := by omega
    subst hN1
    constructor <;> norm_num [reported_bayes_factors]

/-- Witness for C3 at N = 1 with the identity evidence map. -/
theorem bayes_factors_reported_witness :
    ((1 : ℚ) - 0) ∈
      (reported_bayes_factors 1 (fun n => (n : ℚ))).map (fun t => t.2.2) := by
  have h := bayes_factors_reported 1 (by norm_num) (fun n => (n : ℚ))
  simpa using h.2

/-- Counterexample to C4 as stated: a non-root rank whose sanity checks
pass still attempts the output-directory creation; makedirs is not gated
by the coordinator predicate. -/
theorem mkdirs_runs_on_nonroot :
    i_am_root inp_nonroot.rank = false
    ∧ Ev.mkdirsAttempt ∈ (script inp_nonroot).1 := by
  constructor
  · rfl
  · decide

/-- C4 (amended): baseline-evidence computation and all plotting
operations run only on the coordinator; a non-coordinator process never
performs any of them. Output-directory creation, however, is performed
by any process that reaches it. -/
theorem nonroot_no_post_events (inp : ScriptInput)
    (hroot : i_am_root inp.rank = false) :
    ∀ e ∈ (script inp).1, isPostRootEv e = false := by
  intro e he
  by_cases hs : sanity_passes inp = true
  · cases hd : dir_err inp with
    | some err =>
      simp [script, hs, hd] at he
      exact dir_evs_no_post inp e he
    | none =>
      cases hsam : inp.samplerResult with
      | some err =>
        simp [script, hs, hd, hsam] at he
        rcases he with he | he
        · exact dir_evs_no_post inp e he
        · rw [he]; rfl
      | none =>
        simp [script, hs, hd, hsam, hroot] at he
        rcases he with he | he
        · exact dir_evs_no_post inp e he
        · rw [he]; rfl
  · have hs0 : sanity_passes inp = false := by simpa using hs
    simp [script, hs0] at he
    rw [he]; rfl

/-- Witness for the amended C4 on a concrete non-root run. -/
theorem nonroot_no_post_events_witness :
    isPostRootEv Ev.samplerCall = false :=
  nonroot_no_post_events inp_nonroot rfl Ev.samplerCall (by decide)

/-- C5: an already-exists OSError (errno 17) from makedirs is swallowed
and the run proceeds to the sampler; any other errno is re-raised and
propagates; a two-process race on a missing directory yields exactly one
actual creation and no raised error. -/
theorem makedirs_errno17_swallowed :
    makedirs_errno_guard (some 17) = none
    ∧ (∀ e : ℕ, e ≠ 17 → makedirs_errno_guard (some e) = some e)
    ∧ race_two_creators = (1, none, none)
    ∧ (∀ inp : ScriptInput, sanity_passes inp = true →
        inp.chainsDirExists = false → inp.makedirsResult = some 17 →
        Ev.samplerCall ∈ (script inp).1)
    ∧ (∀ (inp : ScriptInput) (e : ℕ), sanity_passes inp = true →
        inp.chainsDirExists = false → inp.makedirsResult = some e →
        e ≠ 17 → (script inp).2 = Outcome.raised (PyErr.osError e)) := by
  refine ⟨by decide, ?_, by decide, ?_, ?_⟩
  · intro e he
    simp [makedirs_errno_guard, he]
  · intro inp hs hex hmk
    have hd : dir_err inp = none := by
      simp [dir_err, hex, hmk, makedirs_errno_guard]
    obtain ⟨rest, hr⟩ := script_pass_trace inp hs hd
    rw [hr]
    simp
  · intro inp e hs hex hmk hne
    have hd : dir_err inp = some e := by
      simp [dir_err, hex, hmk, makedirs_errno_guard, hne]
    simp [script, hs, hd]

/-- Witness for C5: errno 13 is re-raised in general and in the script;
a lost race (errno 17) still reaches the sampler. -/
theorem makedirs_errno17_swallowed_witness :
    makedirs_errno_guard (some 13) = some 13
    ∧ Ev.samplerCall ∈ (script inp_mkdir17).1
    ∧ (script inp_mkdir13).2 = Outcome.raised (PyErr.osError 13) := by
  have h := makedirs_errno17_swallowed
  exact ⟨h.2.1 13 (by decide), h.2.2.2.1 inp_mkdir17 rfl rfl rfl,
    h.2.2.2.2 inp_mkdir13 13 rfl rfl rfl (by decide)⟩

/-- C6: on the coordinator with plotting on, a FileNotFoundError or
OSError while reading the cached baseline file leads to recomputing the
zero-component evidence, after which the run completes and the
Bayes-factor line is still produced. -/
theorem baseline_missing_fallback (inp : ScriptInput)
    (hroot : i_am_root inp.rank = true)
    (hplot : parse_plotting inp.argv = true)
    (hs : sanity_passes inp = true)
    (hd : dir_err inp = none)
    (hsam : inp.samplerResult = none)
    (hread : inp.baselineRead = ReadRes.fnfError
      ∨ inp.baselineRead = ReadRes.osReadError) :
    Ev.baselineRecompute ∈ (script inp).1
    ∧ (script inp).2 = Outcome.completed
    ∧ Ev.logBayesFactor (parse_npeaks inp.argv)
        (parse_npeaks inp.argv - 1) ∈ (script inp).1 := by
  rcases hread with h | h <;>
    refine ⟨?_, ?_, ?_⟩ <;>
    simp [script, hs, hd, hsam, hroot, hplot, h, bf_events]

/-- Witness for C6 on a concrete root run with a missing baseline file. -/
theorem baseline_missing_fallback_witness :
    Ev.baselineRecompute ∈ (script inp_fallback).1
    ∧ (script inp_fallback).2 = Outcome.completed
    ∧ Ev.logBayesFactor 1 0 ∈ (script inp_fallback).1 := by
  have h := baseline_missing_fallback inp_fallback rfl (by decide)
    (by decide) rfl rfl (Or.inl rfl)
  refine ⟨h.1, h.2.1, ?_⟩
  have h3 := h.2.2
  norm_num [inp_fallback, parse_npeaks] at h3
  exact h3

/-- C7: the sampler invocation sits in no exception handler: whatever it
raises becomes the outcome of the whole run, unmodified, and the trace
stops at the sampler call. -/
theorem sampler_error_propagates (inp : ScriptInput) (e : PyErr)
    (hs : sanity_passes inp = true) (hd : dir_err inp = none)
    (hsam : inp.samplerResult = some e) :
    script inp = (dir_evs inp ++ [Ev.samplerCall], Outcome.raised e) := by
  simp [script, hs, hd, hsam]

/-- Witness for C7 on a concrete run whose sampler raises. -/
theorem sampler_error_propagates_witness :
    script inp_sampler_fail =
      ([Ev.samplerCall], Outcome.raised PyErr.samplerError) := by
  have h := sampler_error_propagates inp_sampler_fail PyErr.samplerError
    rfl rfl rfl
  simpa [dir_evs, inp_sampler_fail] using h

/-- C9: a missing command-line argument triggers its default instead of
an error: with no arguments npeaks is 2, the pixel is (x, y) = (112, 140)
(stored as yx = (140, 112)), and plotting is off; each parse falls back
independently whenever its own argv index is absent. -/
theorem argv_defaults :
    (parse_npeaks [] = 2 ∧ parse_yx [] = (140, 112)
      ∧ parse_plotting [] = false)
    ∧ (∀ argv : List ℤ, argv[0]? = none → parse_npeaks argv = 2)
    ∧ (∀ argv : List ℤ, argv[1]? = none ∨ argv[2]? = none →
        parse_yx argv = (140, 112))
    ∧ (∀ argv : List ℤ, argv[3]? = none → parse_plotting argv = false) := by
  refine ⟨⟨rfl, rfl, rfl⟩, ?_, ?_, ?_⟩
  · intro argv h
    simp [parse_npeaks, h]
  · intro argv h
    rcases h with h | h
    · simp [parse_yx, h]
    · unfold parse_yx
      rw [h]
      rcases argv[1]? with _ | a <;> rfl
  · intro argv h
    simp [parse_plotting, h]

/-- Witness for C9: no arguments, a one-argument call, and a
three-argument call each fall back to the respective defaults. -/
theorem argv_defaults_witness :
    parse_npeaks [] = 2 ∧ parse_yx [7] = (140, 112)
    ∧ parse_plotting [1, 2, 3] = false := by
  have h := argv_defaults
  exact ⟨h.1.1, h.2.2.1 [7] (Or.inl rfl), h.2.2.2 [1, 2, 3] rfl⟩

/-- C10: with the plotting flag at its default (false), the run ends
right after the sampler call: no evidence aggregation, no Bayes-factor
lines, no plotting, and a completed outcome. -/
theorem plotting_off_skips_post (inp : ScriptInput)
    (hplot : parse_plotting inp.argv = false)
    (hs : sanity_passes inp = true) (hd : dir_err inp = none)
    (hsam : inp.samplerResult = none) :
    script inp = (dir_evs inp ++ [Ev.samplerCall], Outcome.completed)
    ∧ ∀ e ∈ (script inp).1, isPostRootEv e = false := by
  have htr : script inp =
      (dir_evs inp ++ [Ev.samplerCall], Outcome.completed) := by
    simp [script, hs, hd, hsam, hplot]
  refine ⟨htr, ?_⟩
  rw [htr]
  intro e he
  simp at he
  rcases he with he | he
  · exact dir_evs_no_post inp e he
  · rw [he]; rfl

/-- Witness for C10 on a concrete default (plotting-off) run. -/
theorem plotting_off_skips_post_witness :
    script inp_plot_off = ([Ev.samplerCall], Outcome.completed) := by
  have h := plotting_off_skips_post inp_plot_off rfl rfl rfl rfl
  simpa [dir_evs, inp_plot_off] using h.1

end Innocent
